import Mathlib

/-!
Shallow embedding of the booking client of this repository:
the pre-submission duplicate check and transaction reconciliation described in
`src/unnamed/part_000`, the Firebase database helpers of `src/js/firebase-db.js`,
the `StorageManager` of `src/unnamed/part_000`, and the
`BookingSecurityLogger` of `src/js/booking-security-logger.js`.

JavaScript strings are modelled as Lean `String`; `String.prototype.includes`
and `toLowerCase` are re-implemented over `List Char` so that concrete
evaluations reduce in the kernel.  Epoch-millisecond clocks are `Int`
(JS numbers used as integral timestamps).  `localStorage` values are modelled
as parsed data (with an explicit `absent` / `malformed` state where the code
distinguishes them), and every remote Firebase call is a parameter supplying
the outcome the SDK would have produced.
-/

/-- `p` is a prefix of `s`, on `List Char` (helper for JS `includes`). -/
def charsStartWith : List Char → List Char → Bool
  | _, [] => true
  | [], _ :: _ => false
  | c :: cs, p :: ps => c == p && charsStartWith cs ps

/-- substring occurrence on `List Char` (helper for JS `includes`). -/
def charsContain : List Char → List Char → Bool
  | [], pat => pat.isEmpty
  | c :: rest, pat => charsStartWith (c :: rest) pat || charsContain rest pat

/-- JS `s.includes(pat)`. -/
def jsIncludes (s pat : String) : Bool :=
  charsContain s.data pat.data

/-- lower-case one ASCII character (JS `toLowerCase` on the alphabet used here). -/
def lowerChar (c : Char) : Char :=
  if 65 ≤ c.toNat ∧ c.toNat ≤ 90 then Char.ofNat (c.toNat + 32) else c

/-- JS `s.toLowerCase()` (ASCII; the strings compared in the source are ASCII). -/
def jsToLower (s : String) : String :=
  ⟨s.data.map lowerChar⟩

namespace DupCheck

/-- A booking as seen by the pre-submission duplicate check. -/
structure Booking where
  petName : String
  date : String
  time : String
  status : String
  deriving DecidableEq, Repr

/-- The cancelled status variants of the booking lifecycle
(`cancelledByCustomer`, `cancelledByAdmin`, `cancelledBySystem`). -/
def cancelledStatuses : List String :=
  ["cancelledByCustomer", "cancelledByAdmin", "cancelledBySystem"]

/-- Modelled from the spec: the `isDuplicate` pre-submission check computed by
`submitBooking` in `js/booking.js`, a file that is not under `src/` (only its
BLOCKED-branch handling is quoted in `src/unnamed/part_000` lines 106-128, and
part_000 lines 89-91 state the rule: same pet + same date + same time =
BLOCKED, same pet + different date = ALLOWED).  Spec 4.2 step 1: scan the
current known bookings for the acting user where `petName` matches
(case-sensitive exact match), `date` matches exactly, `time` matches exactly,
and `status` is not a cancelled variant. -/
def isDuplicate (existing : List Booking) (petName date time : String) : Bool :=
  existing.any fun b =>
    b.petName == petName && b.date == date && b.time == time &&
      !(cancelledStatuses.contains b.status)

/-- Classification of a create attempt. -/
inductive Outcome
  | blocked
  | proceed
  deriving DecidableEq, Repr

/-- The duplicate branch of `submitBooking` (src/unnamed/part_000 lines
106-128): on a duplicate the function warns and returns before any record is
created; otherwise it proceeds to the creation path.  Returns the
classification and the booking collection after the attempt. -/
def submitBooking (existing : List Booking) (petName date time status : String) :
    Outcome × List Booking :=
  if isDuplicate existing petName date time then
    (.blocked, existing)
  else
    (.proceed, existing ++ [⟨petName, date, time, status⟩])

end DupCheck

namespace Reconcile

/-- A booking record as inspected by the `!result.committed` reconciliation of
`createBookingSecure` (src/unnamed/part_000 lines 199-220). -/
structure Booking where
  id : String
  userId : String
  date : String
  time : String
  petName : String
  serverGenerated : Bool
  createdAt : Int
  deriving DecidableEq, Repr

/-- The identity/slot of the attempted creation (`user.id` and `bookingData`). -/
structure Attempt where
  userId : String
  date : String
  time : String
  petName : String
  deriving DecidableEq, Repr

/-- The predicate of the reconciliation search (part_000 lines 204-211):
same user, same date, same time, same pet name, `serverGenerated === true`,
and created within the last 10 seconds (`Date.now() - b.createdAt < 10000`). -/
def matchesRecent (now : Int) (a : Attempt) (b : Booking) : Bool :=
  b.userId == a.userId && b.date == a.date && b.time == a.time &&
    b.petName == a.petName && b.serverGenerated == true &&
    now - b.createdAt < 10000

/-- `Object.values(bookings).find(...)` over the transaction result snapshot
(`none` models `!snapshot || !snapshot.val()`). -/
def findRecentBooking (now : Int) (a : Attempt)
    (snapshot : Option (List Booking)) : Option Booking :=
  match snapshot with
  | none => none
  | some bookings => bookings.find? (matchesRecent now a)

/-- The error message thrown when reconciliation finds nothing. -/
def duplicateError : String :=
  "Booking creation failed - possible duplicate detected"

/-- Outcome handling of `createBookingSecure` after `runTransaction`
(part_000 lines 199-220): when committed, the created booking is returned;
when not committed, the snapshot is searched for a matching recent
server-generated record, which is returned if found; only otherwise is the
duplicate-creation failure raised. -/
def createBookingSecureResult (committed : Bool) (created : Booking) (now : Int)
    (a : Attempt) (snapshot : Option (List Booking)) : Except String Booking :=
  if committed then
    .ok created
  else
    match findRecentBooking now a snapshot with
    | some recent => .ok recent
    | none => .error duplicateError

end Reconcile

/-- C1: the pre-submission duplicate check classifies a create attempt as
BLOCKED (creating no record) exactly when an existing booking of the user has
an equal `petName` (case-sensitive exact match), equal `date`, equal `time`,
and a non-cancelled status; an attempt whose date differs from every existing
booking's date is ALLOWED. -/
theorem c1_duplicate_check_blocks_exactly_same_slot
    (existing : List DupCheck.Booking) (petName date time status : String) :
    ((DupCheck.submitBooking existing petName date time status).1 =
        DupCheck.Outcome.blocked ↔
      ∃ b ∈ existing, b.petName = petName ∧ b.date = date ∧ b.time = time ∧
        b.status ∉ DupCheck.cancelledStatuses) ∧
    ((DupCheck.submitBooking existing petName date time status).1 =
        DupCheck.Outcome.blocked →
      (DupCheck.submitBooking existing petName date time status).2 = existing) ∧
    ((∀ b ∈ existing, b.date ≠ date) →
      (DupCheck.submitBooking existing petName date time status).1 =
        DupCheck.Outcome.proceed) := by
  refine ⟨?_, ?_, ?_⟩
  · unfold DupCheck.submitBooking
    split
    · rename_i h
      simp only [DupCheck.isDuplicate, List.any_eq_true, Bool.and_eq_true,
        beq_iff_eq, Bool.not_eq_true', decide_eq_false_iff_not] at h
      obtain ⟨b, hb, ⟨⟨h1, h2⟩, h3⟩, h4⟩ := h
      simp only [true_iff]
      exact ⟨b, hb, h1, h2, h3, by simpa using h4⟩
    · rename_i h
      simp only [DupCheck.isDuplicate, List.any_eq_true, Bool.and_eq_true,
        beq_iff_eq, Bool.not_eq_true', decide_eq_false_iff_not] at h
      constructor
      · intro hc; exact absurd hc (by simp)
      · rintro ⟨b, hb, h1, h2, h3, h4⟩
        exact absurd ⟨b, hb, ⟨⟨h1, h2⟩, h3⟩, by simpa using h4⟩ h
  · unfold DupCheck.submitBooking
    split
    · intro _; rfl
    · intro hc; exact absurd hc (by simp)
  · intro hdiff
    unfold DupCheck.submitBooking
    split
    · rename_i h
      simp only [DupCheck.isDuplicate, List.any_eq_true, Bool.and_eq_true,
        beq_iff_eq] at h
      obtain ⟨b, hb, ⟨⟨_, h2⟩, _⟩, _⟩ := h
      exact absurd h2 (hdiff b hb)
    · rfl

/-- Witness for C1: with a pending booking for "Max" on 2025-06-01 at
"10:00 AM", an attempt for "Max" on 2025-06-08 (different date) is ALLOWED. -/
theorem c1_duplicate_check_blocks_exactly_same_slot_witness :
    (DupCheck.submitBooking [⟨"Max", "2025-06-01", "10:00 AM", "pending"⟩]
        "Max" "2025-06-08" "10:00 AM" "pending").1 =
      DupCheck.Outcome.proceed :=
  (c1_duplicate_check_blocks_exactly_same_slot
      [⟨"Max", "2025-06-01", "10:00 AM", "pending"⟩]
      "Max" "2025-06-08" "10:00 AM" "pending").2.2 (by decide)

/-- C2: when the conditional booking write reports not-committed, any record
returned (with no error) is an existing member of the snapshot matching the
attempted user, date, time and petName, with `serverGenerated = true` and
`createdAt` within 10 seconds of now; the duplicate-creation failure is raised
exactly when no such record exists in the snapshot. -/
theorem c2_not_committed_reconciliation
    (now : Int) (a : Reconcile.Attempt) (created : Reconcile.Booking)
    (snapshot : Option (List Reconcile.Booking)) :
    (∀ r, Reconcile.createBookingSecureResult false created now a snapshot =
        Except.ok r →
      ∃ l, snapshot = some l ∧ r ∈ l ∧ r.userId = a.userId ∧ r.date = a.date ∧
        r.time = a.time ∧ r.petName = a.petName ∧ r.serverGenerated = true ∧
        now - r.createdAt < 10000) ∧
    (Reconcile.createBookingSecureResult false created now a snapshot =
        Except.error Reconcile.duplicateError ↔
      ∀ l, snapshot = some l → ∀ b ∈ l, Reconcile.matchesRecent now a b = false) := by
  constructor
  · intro r hr
    unfold Reconcile.createBookingSecureResult at hr
    simp only [if_neg (by simp : ¬(false = true))] at hr
    cases hfind : Reconcile.findRecentBooking now a snapshot with
    | none => rw [hfind] at hr; exact absurd hr (by simp)
    | some recent =>
        rw [hfind] at hr
        simp only [Except.ok.injEq] at hr
        subst hr
        unfold Reconcile.findRecentBooking at hfind
        cases snapshot with
        | none => exact absurd hfind (by simp)
        | some l =>
            refine ⟨l, rfl, List.mem_of_find?_eq_some hfind, ?_⟩
            have hp := List.find?_some hfind
            simp only [Reconcile.matchesRecent, Bool.and_eq_true, beq_iff_eq,
              decide_eq_true_eq] at hp
            obtain ⟨⟨⟨⟨⟨h1, h2⟩, h3⟩, h4⟩, h5⟩, h6⟩ := hp
            exact ⟨h1, h2, h3, h4, h5, h6⟩
  · unfold Reconcile.createBookingSecureResult Reconcile.findRecentBooking
    simp only [if_neg (by simp : ¬(false = true))]
    cases snapshot with
    | none => simp
    | some l =>
        cases hfind : l.find? (Reconcile.matchesRecent now a) with
        | none =>
            simp only [hfind]
            rw [List.find?_eq_none] at hfind
            constructor
            · intro _ l' hl' b hb
              cases hl'
              simpa using hfind b hb
            · intro _; trivial
        | some recent =>
            simp only [hfind]
            constructor
            · intro hc; exact absurd hc (by simp)
            · intro hnone
              have := List.find?_some hfind
              have hmem := List.mem_of_find?_eq_some hfind
              rw [hnone l rfl recent hmem] at this
              exact absurd this (by simp)

/-- Witness for C2: a not-committed write for user "U", pet "Bella",
2025-07-01 at "2:00 PM", with a matching `serverGenerated` record created
3 seconds ago in the snapshot, returns that record's properties. -/
theorem c2_not_committed_reconciliation_witness :
    ∃ l, (some [(⟨"bk-1", "U", "2025-07-01", "2:00 PM", "Bella", true, 7000⟩ :
          Reconcile.Booking)] :
        Option (List Reconcile.Booking)) = some l ∧
      (⟨"bk-1", "U", "2025-07-01", "2:00 PM", "Bella", true, 7000⟩ :
          Reconcile.Booking) ∈ l ∧
      (⟨"bk-1", "U", "2025-07-01", "2:00 PM", "Bella", true, 7000⟩ :
          Reconcile.Booking).userId = "U" ∧
      (⟨"bk-1", "U", "2025-07-01", "2:00 PM", "Bella", true, 7000⟩ :
          Reconcile.Booking).date = "2025-07-01" ∧
      (⟨"bk-1", "U", "2025-07-01", "2:00 PM", "Bella", true, 7000⟩ :
          Reconcile.Booking).time = "2:00 PM" ∧
      (⟨"bk-1", "U", "2025-07-01", "2:00 PM", "Bella", true, 7000⟩ :
          Reconcile.Booking).petName = "Bella" ∧
      (⟨"bk-1", "U", "2025-07-01", "2:00 PM", "Bella", true, 7000⟩ :
          Reconcile.Booking).serverGenerated = true ∧
      (10000 : Int) - (⟨"bk-1", "U", "2025-07-01", "2:00 PM", "Bella", true,
          7000⟩ : Reconcile.Booking).createdAt < 10000 :=
  (c2_not_committed_reconciliation 10000 ⟨"U", "2025-07-01", "2:00 PM", "Bella"⟩
      ⟨"new", "U", "2025-07-01", "2:00 PM", "Bella", true, 10000⟩
      (some [⟨"bk-1", "U", "2025-07-01", "2:00 PM", "Bella", true, 7000⟩])).1
    ⟨"bk-1", "U", "2025-07-01", "2:00 PM", "Bella", true, 7000⟩ (by rfl)

namespace FirebaseDB

/-- A JS numeric field as seen by the NaN sanitizers of `firebase-db.js`:
absent (`undefined`), `NaN`, or a finite number. -/
inductive JsNum
  | undefined
  | nan
  | fin (q : ℚ)
  deriving DecidableEq, Repr

/-- JS `isNaN` on a numeric field (only applied under a `!== undefined` guard
in the source). -/
def JsNum.isNaN : JsNum → Bool
  | .nan => true
  | _ => false

/-- JS `x || 0` on a numeric value: `undefined`, `NaN` and `0` are falsy. -/
def JsNum.orZero : JsNum → ℚ
  | .fin q => q
  | _ => 0

/-- The `cost` object of a booking. -/
structure Cost where
  subtotal : JsNum
  bookingFee : JsNum
  balanceOnVisit : JsNum
  deriving DecidableEq, Repr

/-- A booking as handled by `firebase-db.js` (fields relevant to the helpers;
`cost = none` models an absent `cost` object). -/
structure Booking where
  id : String
  totalPrice : JsNum
  cost : Option Cost
  status : String
  deriving DecidableEq, Repr

/-- JS `booking.cost?.subtotal`. -/
def costSubtotal (b : Booking) : JsNum :=
  match b.cost with
  | some c => c.subtotal
  | none => .undefined

/-- JS `booking.cost?.balanceOnVisit`. -/
def costBalance (b : Booking) : JsNum :=
  match b.cost with
  | some c => c.balanceOnVisit
  | none => .undefined

/-- `if (booking.totalPrice !== undefined && isNaN(booking.totalPrice))
booking.totalPrice = booking.cost?.subtotal || 0` (saveBookings lines 355-358,
updateBooking lines 451-454). -/
def sanTotalPrice (b : Booking) : Booking :=
  if b.totalPrice ≠ JsNum.undefined ∧ b.totalPrice.isNaN = true then
    { b with totalPrice := .fin (costSubtotal b).orZero }
  else b

/-- `if (booking.cost?.subtotal !== undefined && isNaN(booking.cost.subtotal))
booking.cost.subtotal = 0` (saveBookings lines 359-362, updateBooking lines
455-458). -/
def sanSubtotal (b : Booking) : Booking :=
  if costSubtotal b ≠ JsNum.undefined ∧ (costSubtotal b).isNaN = true then
    { b with cost := b.cost.map fun c => { c with subtotal := .fin 0 } }
  else b

/-- `if (booking.cost?.balanceOnVisit !== undefined &&
isNaN(booking.cost.balanceOnVisit)) booking.cost.balanceOnVisit = 0`
(saveBookings lines 363-366, updateBooking lines 459-462). -/
def sanBalance (b : Booking) : Booking :=
  if costBalance b ≠ JsNum.undefined ∧ (costBalance b).isNaN = true then
    { b with cost := b.cost.map fun c => { c with balanceOnVisit := .fin 0 } }
  else b

/-- The NaN sanitization applied by both `saveBookings` and `updateBooking`
before persisting a booking. -/
def sanitizeCost (b : Booking) : Booking :=
  sanBalance (sanSubtotal (sanTotalPrice b))

/-- A JS error as inspected by the helpers (`code = ""` models an absent
`code` property). -/
structure JsError where
  code : String
  message : String
  deriving DecidableEq, Repr

/-- `error.code === 'PERMISSION_DENIED' ||
error.message.toLowerCase().includes('permission')` — the permission test of
`getUsers`, `saveBookings`, `updateBooking` and the other write helpers. -/
def JsError.isPermissionLower (e : JsError) : Bool :=
  e.code == "PERMISSION_DENIED" || jsIncludes (jsToLower e.message) "permission"

/-- `error.message.includes('Permission denied')` — the permission test of
`getBookings` and `getGroomers`. -/
def JsError.isPermissionDeniedMsg (e : JsError) : Bool :=
  jsIncludes e.message "Permission denied"

/-- A groomer record. -/
structure Groomer where
  id : String
  name : String
  maxDailyBookings : Int
  isActive : Bool
  deriving DecidableEq, Repr

/-- `DEFAULT_GROOMERS` (firebase-db.js lines 646-650). -/
def DEFAULT_GROOMERS : List Groomer :=
  [⟨"groomer-1", "Groomer 1", 5, true⟩,
   ⟨"groomer-2", "Groomer 2", 5, true⟩,
   ⟨"groomer-3", "Groomer 3", 5, true⟩]

/-- A user record (opaque beyond its id for the helpers modelled here). -/
structure User where
  id : String
  deriving DecidableEq, Repr

/-- The module-level mutable state of `firebase-db.js`: the three caches with
their timestamps and permission-denied latches, the parsed `localStorage`
copies, and the session-wide write-denied flag.  `localGroomers = []` models
both an absent and an empty persisted groomer list (`JSON.parse(... || 'null')`
followed by a `length > 0` test treats them alike). -/
structure DBState where
  bookingsCache : Option (List Booking)
  bookingsCacheTime : Int
  bookingsPermissionDenied : Bool
  usersCache : Option (List User)
  usersCacheTime : Int
  usersPermissionDenied : Bool
  groomersCache : Option (List Groomer)
  groomersCacheTime : Int
  groomersPermissionDenied : Bool
  localBookings : List Booking
  localUsers : List User
  localGroomers : List Groomer
  firebaseWriteDenied : Bool
  deriving DecidableEq, Repr

/-- `BOOKINGS_CACHE_DURATION` (30 seconds). -/
def BOOKINGS_CACHE_DURATION : Int := 30000

/-- `USERS_CACHE_DURATION` (1 minute). -/
def USERS_CACHE_DURATION : Int := 60000

/-- `GROOMERS_CACHE_DURATION` (1 minute). -/
def GROOMERS_CACHE_DURATION : Int := 60000

/-- Outcome of a remote Firebase `get`: a snapshot (`some` iff
`snapshot.exists()`) or a thrown error. -/
inductive Remote (α : Type)
  | ok (snapshot : Option α)
  | err (e : JsError)
  deriving DecidableEq, Repr

/-- Which path a read helper took. -/
inductive ReadPath
  | latched
  | cached
  | noDb
  | remote
  deriving DecidableEq, Repr

/-- `bookingsCache && bookingsCache.length > 0 &&
(Date.now() - bookingsCacheTime) < BOOKINGS_CACHE_DURATION`. -/
def bookingsCacheFresh (now : Int) (s : DBState) : Bool :=
  match s.bookingsCache with
  | some c => !c.isEmpty && decide (now - s.bookingsCacheTime < BOOKINGS_CACHE_DURATION)
  | none => false

/-- `usersCache && (Date.now() - usersCacheTime) < USERS_CACHE_DURATION`
(note: no non-emptiness requirement, unlike bookings/groomers). -/
def usersCacheFresh (now : Int) (s : DBState) : Bool :=
  match s.usersCache with
  | some _ => decide (now - s.usersCacheTime < USERS_CACHE_DURATION)
  | none => false

/-- `groomersCache && groomersCache.length > 0 &&
(Date.now() - groomersCacheTime) < GROOMERS_CACHE_DURATION`. -/
def groomersCacheFresh (now : Int) (s : DBState) : Bool :=
  match s.groomersCache with
  | some c => !c.isEmpty && decide (now - s.groomersCacheTime < GROOMERS_CACHE_DURATION)
  | none => false

/-- `getBookings` (firebase-db.js lines 277-344).  `dbAvailable` models
`getDatabase()` returning a handle; `remote` supplies the outcome the Firebase
`get` would produce.  Returns the booking list, the successor state, and the
path taken. -/
def getBookings (dbAvailable : Bool) (now : Int)
    (remote : Remote (List Booking)) (s : DBState) :
    List Booking × DBState × ReadPath :=
  if s.bookingsPermissionDenied then
    (s.localBookings, s, .latched)
  else if bookingsCacheFresh now s then
    (s.bookingsCache.getD [], s, .cached)
  else if !dbAvailable then
    (s.localBookings, s, .noDb)
  else
    match remote with
    | .ok (some bookings) =>
        (bookings,
         { s with bookingsCache := some bookings, bookingsCacheTime := now,
                  localBookings := bookings }, .remote)
    | .ok none => ([], s, .remote)
    | .err e =>
        let s1 := if e.isPermissionDeniedMsg then
            { s with bookingsPermissionDenied := true }
          else s
        match s.bookingsCache with
        | some c =>
            if !c.isEmpty then (c, s1, .remote)
            else (s1.localBookings, s1, .remote)
        | none => (s1.localBookings, s1, .remote)

/-- `getUsers` (firebase-db.js lines 141-216).  `impl` models the optional
`window.getUsersImpl` hook; the legacy Firestore branch is dead in this module
(no global Firestore `db` is declared) and falls through to the localStorage
fallback. -/
def getUsers (impl : Option (Except JsError (List User))) (dbAvailable : Bool)
    (now : Int) (remote : Remote (List User)) (s : DBState) :
    List User × DBState × ReadPath :=
  if s.usersPermissionDenied then
    (s.localUsers, s, .latched)
  else if usersCacheFresh now s then
    (s.usersCache.getD [], s, .cached)
  else
    match impl with
    | some (.ok users) =>
        (users, { s with usersCache := some users, usersCacheTime := now }, .remote)
    | _ =>
        if !dbAvailable then
          (s.localUsers, s, .noDb)
        else
          match remote with
          | .ok (some users) => (users, s, .remote)
          | .ok none => ([], s, .remote)
          | .err e =>
              if e.isPermissionLower then
                (s.localUsers,
                 { s with usersPermissionDenied := true,
                          usersCache := some s.localUsers,
                          usersCacheTime := now }, .remote)
              else
                (s.localUsers, s, .remote)

/-- `localGroomers && localGroomers.length > 0 ? localGroomers :
DEFAULT_GROOMERS`. -/
def groomersLocalOrDefault (s : DBState) : List Groomer :=
  if s.localGroomers.isEmpty then DEFAULT_GROOMERS else s.localGroomers

/-- `getGroomers` (firebase-db.js lines 658-709). -/
def getGroomers (dbAvailable : Bool) (now : Int)
    (remote : Remote (List Groomer)) (s : DBState) :
    List Groomer × DBState × ReadPath :=
  if s.groomersPermissionDenied then
    (groomersLocalOrDefault s, s, .latched)
  else if groomersCacheFresh now s then
    (s.groomersCache.getD [], s, .cached)
  else if !dbAvailable then
    (groomersLocalOrDefault s, s, .noDb)
  else
    match remote with
    | .ok (some groomers) =>
        (groomers,
         { s with groomersCache := some groomers, groomersCacheTime := now,
                  localGroomers := groomers }, .remote)
    | .ok none => (DEFAULT_GROOMERS, s, .remote)
    | .err e =>
        let s1 := if e.isPermissionDeniedMsg then
            { s with groomersPermissionDenied := true }
          else s
        let result := groomersLocalOrDefault s
        (result,
         { s1 with groomersCache := some result, groomersCacheTime := now },
         .remote)

/-- `updateBooking` (firebase-db.js lines 441-487): requires a database and a
booking id, sanitizes NaN cost fields, writes the booking (outcome supplied by
`write`), and on success invalidates the bookings cache; a permission error
sets the session-wide write-denied flag and every error is rethrown. -/
def updateBooking (dbAvailable : Bool) (write : Except JsError Unit)
    (b : Booking) (s : DBState) : Except JsError Booking × DBState :=
  if !dbAvailable then
    (.error ⟨"", "Firebase Database not initialized"⟩, s)
  else if b.id == "" then
    (.error ⟨"", "Invalid booking: missing id"⟩, s)
  else
    let b1 := sanitizeCost b
    match write with
    | .ok _ =>
        (.ok b1, { s with bookingsCache := none, bookingsCacheTime := 0 })
    | .error e =>
        (.error e,
         if e.isPermissionLower then { s with firebaseWriteDenied := true }
         else s)

/-- The first rejection among the per-child write promises
(`Promise.all` rejects with it). -/
def firstError : List (Except JsError Unit) → Option JsError
  | [] => none
  | .ok _ :: rest => firstError rest
  | .error e :: _ => some e

/-- Observable outcome of one `saveBookings` call: the per-child writes issued
(child path id and sanitized value — all of them are issued, `Promise.all`
starts every `set`), whether the bulk root write was attempted, whether
bookings were persisted to localStorage on this path, and the returned or
thrown result. -/
structure SaveOutcome where
  childWrites : List (String × Booking)
  rootWriteAttempted : Bool
  localWrites : Bool
  result : Except JsError Unit
  deriving Repr

/-- `saveBookings` (firebase-db.js lines 346-407): sanitizes each booking,
writes each as an independent child record, falls back to a single root write
only when a child write failed, rethrows the final error, sets the write-denied
flag on a permission failure, and never persists bookings to localStorage. -/
def saveBookings (dbAvailable : Bool) (bookings : List Booking)
    (childResults : List (Except JsError Unit))
    (rootResult : Except JsError Unit) (s : DBState) :
    SaveOutcome × DBState :=
  if !dbAvailable then
    ({ childWrites := [], rootWriteAttempted := false, localWrites := false,
       result := .error ⟨"", "Firebase Database not initialized"⟩ }, s)
  else
    let sanitized := bookings.map sanitizeCost
    let childWrites := sanitized.map fun b => (b.id, b)
    match firstError childResults with
    | none =>
        ({ childWrites := childWrites, rootWriteAttempted := false,
           localWrites := false, result := .ok () },
         { s with bookingsCache := none, bookingsCacheTime := 0 })
    | some _ =>
        match rootResult with
        | .ok _ =>
            ({ childWrites := childWrites, rootWriteAttempted := true,
               localWrites := false, result := .ok () },
             { s with bookingsCache := none, bookingsCacheTime := 0 })
        | .error rootErr =>
            ({ childWrites := childWrites, rootWriteAttempted := true,
               localWrites := false, result := .error rootErr },
             if rootErr.isPermissionLower then
               { s with firebaseWriteDenied := true }
             else s)

end FirebaseDB

open FirebaseDB

/-- After the bookings cache has been cleared and the read latch is not set,
`getBookings` goes remote and returns whatever the remote snapshot holds. -/
theorem FirebaseDB.getBookings_of_cache_none (now : Int)
    (remote : Remote (List Booking)) (s : DBState)
    (h1 : s.bookingsPermissionDenied = false) (h2 : s.bookingsCache = none) :
    (getBookings true now remote s).2.2 = ReadPath.remote ∧
    ∀ l, remote = .ok (some l) → (getBookings true now remote s).1 = l := by
  have hfresh : bookingsCacheFresh now s = false := by
    unfold bookingsCacheFresh
    rw [h2]
  constructor
  · unfold getBookings
    rw [h1, hfresh]
    cases remote with
    | ok snap => cases snap <;> simp
    | err e => rw [h2]; simp
  · intro l hl
    subst hl
    unfold getBookings
    rw [h1, hfresh]
    simp

/-- The bookings cache state written by a successful `updateBooking`. -/
theorem FirebaseDB.updateBooking_ok_state (write : Except JsError Unit)
    (b : Booking) (s : DBState) (r : Booking)
    (hok : (updateBooking true write b s).1 = Except.ok r) :
    (updateBooking true write b s).2 =
      { s with bookingsCache := none, bookingsCacheTime := 0 } := by
  unfold updateBooking at hok ⊢
  simp only [Bool.not_true, Bool.false_eq_true, if_false] at hok ⊢
  by_cases hid : (b.id == "") = true
  · rw [if_pos hid] at hok
    exact absurd hok (by simp)
  · rw [if_neg hid] at hok ⊢
    cases write with
    | ok u => rfl
    | error e => exact absurd hok (by simp)

/-- Pre-update cached list of the C3 counterexample. -/
def c3OldBooking : Booking :=
  ⟨"bk-3", .fin 100, some ⟨.fin 100, .fin 20, .fin 80⟩, "pending"⟩

/-- The updated booking of the C3 counterexample (same id, new data). -/
def c3NewBooking : Booking :=
  ⟨"bk-3", .fin 120, some ⟨.fin 120, .fin 20, .fin 100⟩, "confirmed"⟩

/-- A `firebase-db.js` module state in which the bookings read latch is set
(an earlier `getBookings` saw a permission-denied read error), the in-memory
cache and the persisted copy both hold the pre-update list. -/
def c3State : DBState :=
  { bookingsCache := some [c3OldBooking], bookingsCacheTime := 0,
    bookingsPermissionDenied := true,
    usersCache := none, usersCacheTime := 0, usersPermissionDenied := false,
    groomersCache := none, groomersCacheTime := 0,
    groomersPermissionDenied := false,
    localBookings := [c3OldBooking], localUsers := [], localGroomers := [],
    firebaseWriteDenied := false }

/-- Counterexample to C3: with the bookings read latch set, a successful
`updateBooking` is followed by a `getBookings` that performs no remote fetch
and returns the pre-update list. -/
theorem c3_counterexample_latched_read_after_update :
    (updateBooking true (Except.ok ()) c3NewBooking c3State).1 =
      Except.ok c3NewBooking ∧
    (getBookings true 1 (Remote.ok (some [c3NewBooking]))
        (updateBooking true (Except.ok ()) c3NewBooking c3State).2).2.2 ≠
      ReadPath.remote ∧
    (getBookings true 1 (Remote.ok (some [c3NewBooking]))
        (updateBooking true (Except.ok ()) c3NewBooking c3State).2).1 =
      [c3OldBooking] :=
  ⟨rfl, by decide, by decide⟩

/-- C3 as amended: after any successful `updateBooking(b)`, the bookings cache
entry is absent; provided the bookings read-permission latch is not set, the
next `getBookings` performs a remote fetch regardless of TTL and returns the
remote snapshot, not the pre-update cached list. -/
theorem c3_update_invalidates_cache_amended
    (dbAvailable : Bool) (write : Except JsError Unit) (b : Booking)
    (s : DBState) (r : Booking)
    (hok : (updateBooking dbAvailable write b s).1 = Except.ok r)
    (hlatch : s.bookingsPermissionDenied = false) :
    ((updateBooking dbAvailable write b s).2.bookingsCache = none) ∧
    (∀ now remote,
      (getBookings dbAvailable now remote
          (updateBooking dbAvailable write b s).2).2.2 = ReadPath.remote) ∧
    (∀ now l,
      (getBookings dbAvailable now (Remote.ok (some l))
          (updateBooking dbAvailable write b s).2).1 = l) := by
  cases dbAvailable with
  | false =>
      exact absurd hok (by simp [updateBooking])
  | true =>
      have hstate := updateBooking_ok_state write b s r hok
      rw [hstate]
      refine ⟨rfl, ?_, ?_⟩
      · intro now remote
        exact (getBookings_of_cache_none now remote
          { s with bookingsCache := none, bookingsCacheTime := 0 }
          hlatch rfl).1
      · intro now l
        exact (getBookings_of_cache_none now (Remote.ok (some l))
          { s with bookingsCache := none, bookingsCacheTime := 0 }
          hlatch rfl).2 l rfl

/-- Baseline module state: fresh page load, nothing cached, no latches. -/
def initialState : DBState :=
  { bookingsCache := none, bookingsCacheTime := 0,
    bookingsPermissionDenied := false,
    usersCache := none, usersCacheTime := 0, usersPermissionDenied := false,
    groomersCache := none, groomersCacheTime := 0,
    groomersPermissionDenied := false,
    localBookings := [], localUsers := [], localGroomers := [],
    firebaseWriteDenied := false }

/-- Witness for the amended C3: with no latch, the `getBookings` following a
successful `updateBooking` goes remote. -/
theorem c3_update_invalidates_cache_amended_witness :
    (getBookings true 5 (Remote.ok (some []))
        (updateBooking true (Except.ok ()) c3NewBooking initialState).2).2.2 =
      ReadPath.remote :=
  (c3_update_invalidates_cache_amended true (Except.ok ()) c3NewBooking
      initialState c3NewBooking (by rfl) rfl).2.1 5 (Remote.ok (some []))

/-- The local-or-default groomer fallback is never empty. -/
theorem FirebaseDB.groomersLocalOrDefault_ne_nil (s : DBState) :
    groomersLocalOrDefault s ≠ [] := by
  unfold groomersLocalOrDefault
  split
  · decide
  · rename_i h
    simpa [List.isEmpty_iff] using h

/-- C10: `getGroomers` never returns an empty list (a remote snapshot, when it
exists, is a non-null value and hence non-empty), and on the latched path with
no stored groomer list it returns the three built-in default groomers. -/
theorem c10_getGroomers_never_empty (dbAvailable : Bool) (now : Int)
    (remote : Remote (List Groomer)) (s : DBState)
    (hremote : ∀ l, remote = .ok (some l) → l ≠ []) :
    (getGroomers dbAvailable now remote s).1 ≠ [] ∧
    (s.groomersPermissionDenied = true → s.localGroomers = [] →
      (getGroomers dbAvailable now remote s).1 = DEFAULT_GROOMERS) := by
  constructor
  · unfold getGroomers
    split
    · exact groomersLocalOrDefault_ne_nil s
    · split
      · rename_i hfresh
        unfold groomersCacheFresh at hfresh
        cases hc : s.groomersCache with
        | none => rw [hc] at hfresh; exact absurd hfresh (by simp)
        | some c =>
            rw [hc] at hfresh
            simp only [Bool.and_eq_true, Bool.not_eq_true'] at hfresh
            simpa [List.isEmpty_iff] using hfresh.1
      · split
        · exact groomersLocalOrDefault_ne_nil s
        · cases remote with
          | ok snap =>
              cases snap with
              | none => simp [DEFAULT_GROOMERS]
              | some l => simpa using hremote l rfl
          | err e => simpa using groomersLocalOrDefault_ne_nil s
  · intro hlatch hlocal
    unfold getGroomers
    rw [hlatch]
    simp [groomersLocalOrDefault, hlocal]

/-- Witness for C10: on a fresh state with a failing remote read, the caller
still receives the three default groomers. -/
theorem c10_getGroomers_never_empty_witness :
    (getGroomers true 0 (Remote.err ⟨"", "network timeout"⟩)
        initialState).1 ≠ [] :=
  (c10_getGroomers_never_empty true 0 (Remote.err ⟨"", "network timeout"⟩)
      initialState (fun l h => by cases h)).1

/-- C4: `saveBookings` issues one independent per-child write for every
booking (with sanitized values); the bulk root write is attempted exactly when
a per-child write failed; the final (root) error is rethrown to the caller;
bookings are never persisted to localStorage on this path; and a
permission-denied final failure sets the session-wide write-denied flag. -/
theorem c4_saveBookings_per_child_writes
    (bookings : List Booking) (childResults : List (Except JsError Unit))
    (rootResult : Except JsError Unit) (s : DBState) :
    ((saveBookings true bookings childResults rootResult s).1.childWrites =
      (bookings.map sanitizeCost).map fun b => (b.id, b)) ∧
    ((saveBookings true bookings childResults rootResult s).1.rootWriteAttempted =
        true ↔ firstError childResults ≠ none) ∧
    ((saveBookings true bookings childResults rootResult s).1.localWrites =
      false) ∧
    (∀ e₀ e, firstError childResults = some e₀ → rootResult = .error e →
      (saveBookings true bookings childResults rootResult s).1.result =
        .error e) ∧
    (∀ e₀ e, firstError childResults = some e₀ → rootResult = .error e →
      e.isPermissionLower = true →
      (saveBookings true bookings childResults rootResult s).2.firebaseWriteDenied =
        true) := by
  unfold saveBookings
  simp only [Bool.not_true, Bool.false_eq_true, if_false]
  cases hfe : firstError childResults with
  | none =>
      refine ⟨rfl, by simp, rfl, ?_, ?_⟩
      · intro e₀ e h _; exact absurd h (by simp)
      · intro e₀ e h _ _; exact absurd h (by simp)
  | some e₀ =>
      cases rootResult with
      | ok u =>
          refine ⟨rfl, by simp, rfl, ?_, ?_⟩
          · intro _ e _ h; exact absurd h (by simp)
          · intro _ e _ h _; exact absurd h (by simp)
      | error rootErr =>
          refine ⟨rfl, by simp, rfl, ?_, ?_⟩
          · intro _ e _ h
            simp only [Except.error.injEq] at h
            subst h; rfl
          · intro _ e _ h hperm
            simp only [Except.error.injEq] at h
            subst h
            simp [hperm]

/-- The permission-denied error of the C4 witness scenario. -/
def c4PermErr : JsError := ⟨"PERMISSION_DENIED", "Permission denied"⟩

/-- Witness for C4 (spec scenario `saveBookings([b1, b2])` where `b2`'s write
fails with PermissionDenied and the root fallback fails likewise): the call
rethrows the permission error and the write-denied flag is set. -/
theorem c4_saveBookings_per_child_writes_witness :
    (saveBookings true [c3OldBooking, c3NewBooking]
        [Except.ok (), Except.error c4PermErr] (Except.error c4PermErr)
        initialState).1.result = Except.error c4PermErr ∧
    (saveBookings true [c3OldBooking, c3NewBooking]
        [Except.ok (), Except.error c4PermErr] (Except.error c4PermErr)
        initialState).2.firebaseWriteDenied = true :=
  ⟨(c4_saveBookings_per_child_writes [c3OldBooking, c3NewBooking]
      [Except.ok (), Except.error c4PermErr] (Except.error c4PermErr)
      initialState).2.2.2.1 c4PermErr c4PermErr rfl rfl,
   (c4_saveBookings_per_child_writes [c3OldBooking, c3NewBooking]
      [Except.ok (), Except.error c4PermErr] (Except.error c4PermErr)
      initialState).2.2.2.2 c4PermErr c4PermErr rfl rfl (by decide)⟩

/-- C5: for each of `getBookings`, `getUsers` and `getGroomers`: a remote
attempt that fails with a recognized permission-denial error latches the
operation's permission-denied flag (and a non-permission failure leaves it
unset); once latched, every subsequent call skips the remote attempt, leaves
the state unchanged and returns the persisted local copy; while the flag is
unset and the cache is stale, the remote attempt is (re)tried. -/
theorem c5_permission_latch_semantics :
    (∀ (now : Int) (s : DBState) (e : JsError),
      s.bookingsPermissionDenied = false → bookingsCacheFresh now s = false →
      (getBookings true now (.err e) s).2.1.bookingsPermissionDenied =
        e.isPermissionDeniedMsg) ∧
    (∀ (dbAvailable : Bool) (now : Int) (remote : Remote (List Booking))
        (s : DBState), s.bookingsPermissionDenied = true →
      getBookings dbAvailable now remote s = (s.localBookings, s, .latched)) ∧
    (∀ (now : Int) (remote : Remote (List Booking)) (s : DBState),
      s.bookingsPermissionDenied = false → bookingsCacheFresh now s = false →
      (getBookings true now remote s).2.2 = ReadPath.remote) ∧
    (∀ (now : Int) (s : DBState) (e : JsError),
      s.usersPermissionDenied = false → usersCacheFresh now s = false →
      (getUsers none true now (.err e) s).2.1.usersPermissionDenied =
        e.isPermissionLower) ∧
    (∀ (impl : Option (Except JsError (List User))) (dbAvailable : Bool)
        (now : Int) (remote : Remote (List User)) (s : DBState),
      s.usersPermissionDenied = true →
      getUsers impl dbAvailable now remote s = (s.localUsers, s, .latched)) ∧
    (∀ (now : Int) (remote : Remote (List User)) (s : DBState),
      s.usersPermissionDenied = false → usersCacheFresh now s = false →
      (getUsers none true now remote s).2.2 = ReadPath.remote) ∧
    (∀ (now : Int) (s : DBState) (e : JsError),
      s.groomersPermissionDenied = false → groomersCacheFresh now s = false →
      (getGroomers true now (.err e) s).2.1.groomersPermissionDenied =
        e.isPermissionDeniedMsg) ∧
    (∀ (dbAvailable : Bool) (now : Int) (remote : Remote (List Groomer))
        (s : DBState), s.groomersPermissionDenied = true →
      (getGroomers dbAvailable now remote s).2 = (s, .latched) ∧
      (s.localGroomers ≠ [] →
        (getGroomers dbAvailable now remote s).1 = s.localGroomers)) ∧
    (∀ (now : Int) (remote : Remote (List Groomer)) (s : DBState),
      s.groomersPermissionDenied = false → groomersCacheFresh now s = false →
      (getGroomers true now remote s).2.2 = ReadPath.remote) := by
  refine ⟨?_, ?_, ?_, ?_, ?_, ?_, ?_, ?_, ?_⟩
  · intro now s e hflag hfresh
    unfold getBookings
    rw [hflag, hfresh]
    simp only [Bool.false_eq_true, if_false, Bool.not_true]
    cases he : e.isPermissionDeniedMsg <;>
      cases hc : s.bookingsCache <;>
      simp [he, hflag] <;> split <;> simp [hflag]
  · intro dbAvailable now remote s hflag
    unfold getBookings
    rw [hflag]
    simp
  · intro now remote s hflag hfresh
    unfold getBookings
    rw [hflag, hfresh]
    simp only [Bool.false_eq_true, if_false, Bool.not_true]
    cases remote with
    | ok snap => cases snap <;> simp
    | err e =>
        cases hc : s.bookingsCache
        · simp
        · simp
          split <;> simp
  · intro now s e hflag hfresh
    unfold getUsers
    rw [hflag, hfresh]
    simp only [Bool.false_eq_true, if_false, Bool.not_true]
    cases he : e.isPermissionLower <;> simp [he, hflag]
  · intro impl dbAvailable now remote s hflag
    unfold getUsers
    rw [hflag]
    simp
  · intro now remote s hflag hfresh
    unfold getUsers
    rw [hflag, hfresh]
    simp only [Bool.false_eq_true, if_false, Bool.not_true]
    cases remote with
    | ok snap => cases snap <;> simp
    | err e => cases he : e.isPermissionLower <;> simp [he]
  · intro now s e hflag hfresh
    unfold getGroomers
    rw [hflag, hfresh]
    simp only [Bool.false_eq_true, if_false, Bool.not_true]
    cases he : e.isPermissionDeniedMsg <;> simp [he, hflag]
  · intro dbAvailable now remote s hflag
    unfold getGroomers
    rw [hflag]
    constructor
    · simp
    · intro hlocal
      simp [groomersLocalOrDefault, List.isEmpty_iff, hlocal]
  · intro now remote s hflag hfresh
    unfold getGroomers
    rw [hflag, hfresh]
    simp only [Bool.false_eq_true, if_false, Bool.not_true]
    cases remote with
    | ok snap => cases snap <;> simp
    | err e => cases he : e.isPermissionDeniedMsg <;> simp [he]

/-- A transient (non-permission) read error of the C5 witness. -/
def c5TransientErr : JsError := ⟨"", "network timeout"⟩

/-- A permission-denial read error of the C5 witness. -/
def c5PermErr : JsError := ⟨"", "Error: Permission denied at /bookings"⟩

/-- Witness for C5: on a fresh state, a permission-denied `getBookings` error
latches the flag while a transient error leaves it unset; a latched state is
returned to directly. -/
theorem c5_permission_latch_semantics_witness :
    (getBookings true 0 (.err c5PermErr)
        initialState).2.1.bookingsPermissionDenied = true ∧
    (getBookings true 0 (.err c5TransientErr)
        initialState).2.1.bookingsPermissionDenied = false ∧
    getBookings true 0 (.err c5TransientErr) c3State =
      (c3State.localBookings, c3State, .latched) :=
  ⟨by rw [c5_permission_latch_semantics.1 0 initialState c5PermErr rfl rfl]
      decide,
   by rw [c5_permission_latch_semantics.1 0 initialState c5TransientErr rfl rfl]
      decide,
   c5_permission_latch_semantics.2.1 true 0 (.err c5TransientErr) c3State rfl⟩

/-- After the `totalPrice` sanitization step, `totalPrice` is never NaN. -/
theorem FirebaseDB.sanTotalPrice_totalPrice_ne_nan (b : Booking) :
    (sanTotalPrice b).totalPrice ≠ JsNum.nan := by
  unfold sanTotalPrice
  split
  · simp
  · rename_i h
    intro hc
    apply h
    rw [hc]
    exact ⟨by simp, rfl⟩

/-- The `totalPrice` step does not touch the `cost` object. -/
theorem FirebaseDB.sanTotalPrice_cost (b : Booking) :
    (sanTotalPrice b).cost = b.cost := by
  unfold sanTotalPrice
  split <;> rfl

/-- The `subtotal` step does not touch `totalPrice`. -/
theorem FirebaseDB.sanSubtotal_totalPrice (b : Booking) :
    (sanSubtotal b).totalPrice = b.totalPrice := by
  unfold sanSubtotal
  split <;> rfl

/-- The `balanceOnVisit` step does not touch `totalPrice`. -/
theorem FirebaseDB.sanBalance_totalPrice (b : Booking) :
    (sanBalance b).totalPrice = b.totalPrice := by
  unfold sanBalance
  split <;> rfl

/-- The `balanceOnVisit` step does not touch `subtotal`. -/
theorem FirebaseDB.sanBalance_cost_subtotal (b : Booking) :
    ((sanBalance b).cost).map (fun c => c.subtotal) =
      (b.cost).map fun c => c.subtotal := by
  unfold sanBalance
  split
  · cases b.cost <;> rfl
  · rfl

/-- After the `subtotal` sanitization step, `subtotal` is never NaN. -/
theorem FirebaseDB.sanSubtotal_subtotal_ne_nan (b : Booking) (c : Cost)
    (hc : (sanSubtotal b).cost = some c) : c.subtotal ≠ JsNum.nan := by
  unfold sanSubtotal at hc
  split at hc
  · cases hb : b.cost with
    | none => rw [hb] at hc; exact absurd hc (by simp)
    | some c0 =>
        rw [hb] at hc
        simp only [Option.map_some', Option.some.injEq] at hc
        rw [← hc]
        simp
  · rename_i h
    intro hnan
    apply h
    have hcs : costSubtotal b = c.subtotal := by
      simp [costSubtotal, hc]
    rw [hcs, hnan]
    exact ⟨by simp, rfl⟩

/-- After the `balanceOnVisit` sanitization step, `balanceOnVisit` is never
NaN. -/
theorem FirebaseDB.sanBalance_balance_ne_nan (b : Booking) (c : Cost)
    (hc : (sanBalance b).cost = some c) : c.balanceOnVisit ≠ JsNum.nan := by
  unfold sanBalance at hc
  split at hc
  · cases hb : b.cost with
    | none => rw [hb] at hc; exact absurd hc (by simp)
    | some c0 =>
        rw [hb] at hc
        simp only [Option.map_some', Option.some.injEq] at hc
        rw [← hc]
        simp
  · rename_i h
    intro hnan
    apply h
    have hcb : costBalance b = c.balanceOnVisit := by
      simp [costBalance, hc]
    rw [hcb, hnan]
    exact ⟨by simp, rfl⟩

/-- A booking whose `cost.bookingFee` is NaN (and whose other cost fields are
finite). -/
def c6Booking : Booking :=
  ⟨"bk-6", .fin 100, some ⟨.fin 100, .nan, .fin 50⟩, "pending"⟩

/-- Counterexample to C6: the sanitizers of `saveBookings` and `updateBooking`
never touch `cost.bookingFee`, so a booking whose `bookingFee` is NaN is
persisted with NaN — the value actually written (returned by `updateBooking`
and issued as the per-child write of `saveBookings`) is `c6Booking` itself,
whose `bookingFee` is NaN rather than a finite number. -/
theorem c6_counterexample_bookingFee_not_sanitized :
    (updateBooking true (Except.ok ()) c6Booking initialState).1 =
      Except.ok c6Booking ∧
    (saveBookings true [c6Booking] [Except.ok ()] (Except.ok ())
        initialState).1.childWrites = [("bk-6", c6Booking)] ∧
    c6Booking.cost = some ⟨.fin 100, JsNum.nan, .fin 50⟩ :=
  ⟨rfl, by decide, rfl⟩

/-- C6 as amended: in the value actually written by `saveBookings` and
`updateBooking` (the sanitized booking), `totalPrice`, `cost.subtotal` and
`cost.balanceOnVisit` are never NaN — NaN is replaced by 0 or by a value
derived from `subtotal` — but `cost.bookingFee` is not sanitized and may be
written as NaN. -/
theorem c6_nan_sanitization_amended (b : Booking) :
    ((sanitizeCost b).totalPrice ≠ JsNum.nan) ∧
    (∀ c, (sanitizeCost b).cost = some c →
      c.subtotal ≠ JsNum.nan ∧ c.balanceOnVisit ≠ JsNum.nan) ∧
    (∀ (dbAvailable : Bool) (write : Except JsError Unit) (s : DBState) r,
      (updateBooking dbAvailable write b s).1 = Except.ok r →
      r = sanitizeCost b) ∧
    (∀ (bookings : List Booking) (childResults : List (Except JsError Unit))
        (rootResult : Except JsError Unit) (s : DBState),
      (saveBookings true bookings childResults rootResult s).1.childWrites.map
        Prod.snd = bookings.map sanitizeCost) := by
  refine ⟨?_, ?_, ?_, ?_⟩
  · unfold sanitizeCost
    rw [sanBalance_totalPrice, sanSubtotal_totalPrice]
    exact sanTotalPrice_totalPrice_ne_nan b
  · intro c hc
    refine ⟨?_, sanBalance_balance_ne_nan _ c hc⟩
    have hmap := sanBalance_cost_subtotal (sanSubtotal (sanTotalPrice b))
    unfold sanitizeCost at hc
    rw [hc] at hmap
    cases hx : (sanSubtotal (sanTotalPrice b)).cost with
    | none => rw [hx] at hmap; exact absurd hmap (by simp)
    | some c0 =>
        rw [hx] at hmap
        simp only [Option.map_some', Option.some.injEq] at hmap
        rw [hmap]
        exact sanSubtotal_subtotal_ne_nan (sanTotalPrice b) c0 hx
  · intro dbAvailable write s r hok
    cases dbAvailable with
    | false => exact absurd hok (by simp [updateBooking])
    | true =>
        unfold updateBooking at hok
        simp only [Bool.not_true, Bool.false_eq_true, if_false] at hok
        by_cases hid : (b.id == "") = true
        · rw [if_pos hid] at hok
          exact absurd hok (by simp)
        · rw [if_neg hid] at hok
          cases write with
          | ok u =>
              simp only [Except.ok.injEq] at hok
              exact hok.symm
          | error e => exact absurd hok (by simp)
  · intro bookings childResults rootResult s
    unfold saveBookings
    simp only [Bool.not_true, Bool.false_eq_true, if_false]
    have hmaps : ((bookings.map sanitizeCost).map
        (fun b => (b.id, b))).map Prod.snd = bookings.map sanitizeCost := by
      rw [List.map_map]
      simp [Function.comp_def]
    cases firstError childResults with
    | none => exact hmaps
    | some e₀ =>
        cases rootResult with
        | ok u => exact hmaps
        | error rootErr => exact hmaps

/-- Witness for the amended C6: applying the update-path conjunct at the NaN
`bookingFee` booking shows the written value is exactly the sanitized one. -/
theorem c6_nan_sanitization_amended_witness :
    c6Booking = sanitizeCost c6Booking :=
  (c6_nan_sanitization_amended c6Booking).2.2.1 true (Except.ok ())
    initialState c6Booking rfl

namespace StorageManager

/-- Outcome of `localStorage.getItem(key)` followed by `JSON.parse`:
the key is absent, the stored text fails to parse (or has the wrong shape),
or a value of the expected shape was parsed. -/
inductive Stored (α : Type)
  | absent
  | malformed
  | val (v : α)
  deriving DecidableEq, Repr

/-- Milliseconds per day (`24 * 60 * 60 * 1000`). -/
def dayMs : Int := 24 * 60 * 60 * 1000

/-- `MAX_AGE.bookings` (days). -/
def MAX_AGE_bookings : Int := 90

/-- `MAX_AGE.bookingHistory` (days). -/
def MAX_AGE_bookingHistory : Int := 30

/-- `MAX_AGE.securityLogs` (days). -/
def MAX_AGE_securityLogs : Int := 7

/-- `MAX_AGE.actionLocks` (days). -/
def MAX_AGE_actionLocks : Int := 1

/-- A stored booking as read by the cleanup/eviction code.  `createdAt = 0`
models a falsy (absent/zero) `createdAt`; `dateMillis` is
`new Date(booking.date).getTime()` with `none` for an unparseable date (NaN). -/
structure StoredBooking where
  createdAt : Int
  dateMillis : Option Int
  status : String
  deriving DecidableEq, Repr

/-- `booking.createdAt || new Date(booking.date).getTime()`. -/
def bookingTimestamp (b : StoredBooking) : Option Int :=
  if b.createdAt ≠ 0 then some b.createdAt else b.dateMillis

/-- `t < cutoff` on a possibly-NaN timestamp (NaN compares false). -/
def tsLt (t : Option Int) (cutoff : Int) : Bool :=
  match t with
  | some v => decide (v < cutoff)
  | none => false

/-- The statuses treated as completed by `cleanupOldBookings`
(`['completed', 'cancelled', 'no-show']`). -/
def completedStatuses : List String := ["completed", "cancelled", "no-show"]

/-- The filter of `cleanupOldBookings`: a booking is kept unless it is both
older than the cutoff (by its own record timestamp) and completed. -/
def bookingKept (cutoff : Int) (b : StoredBooking) : Bool :=
  !(tsLt (bookingTimestamp b) cutoff && completedStatuses.contains b.status)

/-- `cleanupOldBookings` (part_000 lines 341-373): on parse failure or an
absent key it changes nothing and reports 0 archived; otherwise it filters out
old completed/cancelled/no-show bookings.  Returns the new stored value and
the archived count. -/
def cleanupOldBookings (now : Int) (stored : Stored (List StoredBooking)) :
    Stored (List StoredBooking) × Int :=
  match stored with
  | .absent => (.absent, 0)
  | .malformed => (.malformed, 0)
  | .val bookings =>
      let cutoff := now - MAX_AGE_bookings * dayMs
      let active := bookings.filter (bookingKept cutoff)
      (.val active, (bookings.length : Int) - active.length)

/-- A booking-history entry (`entry.timestamp || entry.createdAt || 0`;
0 models falsy). -/
structure HistoryEntry where
  timestamp : Int
  createdAt : Int
  deriving DecidableEq, Repr

/-- `entry.timestamp || entry.createdAt || 0`. -/
def entryDate (e : HistoryEntry) : Int :=
  if e.timestamp ≠ 0 then e.timestamp
  else if e.createdAt ≠ 0 then e.createdAt
  else 0

/-- `cleanupBookingHistory` (part_000 lines 378-401). -/
def cleanupBookingHistory (now : Int) (stored : Stored (List HistoryEntry)) :
    Stored (List HistoryEntry) × Int :=
  match stored with
  | .absent => (.absent, 0)
  | .malformed => (.malformed, 0)
  | .val history =>
      let cutoff := now - MAX_AGE_bookingHistory * dayMs
      let filtered := history.filter fun e => decide (entryDate e > cutoff)
      (.val filtered, (history.length : Int) - filtered.length)

/-- A security-log record as read by the cleanup sweep. -/
structure LogRecord where
  timestamp : Int
  deriving DecidableEq, Repr

/-- `cleanupSecurityLogs` (part_000 lines 406-426). -/
def cleanupSecurityLogs (now : Int) (stored : Stored (List LogRecord)) :
    Stored (List LogRecord) × Int :=
  match stored with
  | .absent => (.absent, 0)
  | .malformed => (.malformed, 0)
  | .val logs =>
      let cutoff := now - MAX_AGE_securityLogs * dayMs
      let filtered := logs.filter fun r => decide (r.timestamp > cutoff)
      (.val filtered, (logs.length : Int) - filtered.length)

/-- One action lock (`locks[key].startedAt`). -/
structure LockRecord where
  startedAt : Int
  deriving DecidableEq, Repr

/-- `cleanupActionLocks` (part_000 lines 431-457); the locks object is an
association of keys to lock records, an entry is deleted when its `startedAt`
is before the cutoff. -/
def cleanupActionLocks (now : Int)
    (stored : Stored (List (String × LockRecord))) :
    Stored (List (String × LockRecord)) × Int :=
  match stored with
  | .absent => (.absent, 0)
  | .malformed => (.malformed, 0)
  | .val locks =>
      let cutoff := now - MAX_AGE_actionLocks * dayMs
      let kept := locks.filter fun kv => !decide (kv.2.startedAt < cutoff)
      (.val kept, (locks.length : Int) - kept.length)

/-- The four localStorage keys swept by `cleanupStaleData`. -/
structure LocalData where
  bookings : Stored (List StoredBooking)
  bookingHistory : Stored (List HistoryEntry)
  securityLogs : Stored (List LogRecord)
  actionLocks : Stored (List (String × LockRecord))
  deriving DecidableEq, Repr

/-- The per-category counts reported by `cleanupStaleData`. -/
structure CleanupCounts where
  bookingsArchived : Int
  historyRemoved : Int
  logsRemoved : Int
  locksRemoved : Int
  deriving DecidableEq, Repr

/-- `cleanupStaleData` (part_000 lines 462-471): runs the four category
cleanups; each category's try/catch returns its default on a parse error, so
no category can abort the others. -/
def cleanupStaleData (now : Int) (st : LocalData) : LocalData × CleanupCounts :=
  let rb := cleanupOldBookings now st.bookings
  let rh := cleanupBookingHistory now st.bookingHistory
  let rl := cleanupSecurityLogs now st.securityLogs
  let rk := cleanupActionLocks now st.actionLocks
  ({ bookings := rb.1, bookingHistory := rh.1, securityLogs := rl.1,
     actionLocks := rk.1 },
   { bookingsArchived := rb.2, historyRemoved := rh.2, logsRemoved := rl.2,
     locksRemoved := rk.2 })

/-- The localStorage keys touched by `writeImmediate`/`emergencyCleanup`:
presence of the four low-priority keys and the parsed bookings collection. -/
structure QuotaStore where
  bookingSecurityLogs : Option String
  actionLocks : Option String
  bookingSubmissionStatus : Option String
  bookingHistory : Option String
  bookings : Stored (List StoredBooking)
  deriving DecidableEq, Repr

/-- The statuses kept by the aggressive booking cleanup
(`['pending', 'confirmed', 'in-progress']`). -/
def essentialStatuses : List String := ["pending", "confirmed", "in-progress"]

/-- `emergencyCleanup` (part_000 lines 602-629): removes security logs, action
locks, submission status and history, then trims the stored bookings to
pending/confirmed/in-progress records (`getItem('bookings') || '[]'`, so an
absent key becomes an empty stored list; if the stored bookings fail to parse,
the key is removed instead). -/
def emergencyCleanup (st : QuotaStore) : QuotaStore :=
  { bookingSecurityLogs := none, actionLocks := none,
    bookingSubmissionStatus := none, bookingHistory := none,
    bookings :=
      match st.bookings with
      | .malformed => .absent
      | .absent => .val []
      | .val l => .val (l.filter fun b => essentialStatuses.contains b.status) }

/-- Outcome of one `localStorage.setItem` attempt. -/
inductive WriteAttempt
  | succeeds
  | quotaExceeded
  | otherError
  deriving DecidableEq, Repr

/-- `writeImmediate` (part_000 lines 526-543): writes synchronously; on a
`QuotaExceededError` it runs `emergencyCleanup` and retries exactly once,
returning false if the retry also fails; any other failure returns false
without cleanup or retry.  Returns (returned boolean, store after the call,
number of retries). -/
def writeImmediate (first retry : WriteAttempt) (st : QuotaStore) :
    Bool × QuotaStore × Nat :=
  match first with
  | .succeeds => (true, st, 0)
  | .otherError => (false, st, 0)
  | .quotaExceeded =>
      let st1 := emergencyCleanup st
      match retry with
      | .succeeds => (true, st1, 1)
      | _ => (false, st1, 1)

end StorageManager

open StorageManager

/-- C7: `cleanupStaleData` independently age-limits the four categories —
completed/cancelled bookings at 90 days, history at 30 days, security logs at
7 days, action locks at 1 day — each against its own record-level timestamp;
each category's result depends only on its own stored value, and a parse
failure in one category leaves it unchanged while the others are still
cleaned. -/
theorem c7_cleanup_four_independent_categories (now : Int) (st : LocalData) :
    ((cleanupStaleData now st).1.bookings =
        (cleanupOldBookings now st.bookings).1 ∧
      (cleanupStaleData now st).1.bookingHistory =
        (cleanupBookingHistory now st.bookingHistory).1 ∧
      (cleanupStaleData now st).1.securityLogs =
        (cleanupSecurityLogs now st.securityLogs).1 ∧
      (cleanupStaleData now st).1.actionLocks =
        (cleanupActionLocks now st.actionLocks).1) ∧
    (cleanupOldBookings now .malformed = (.malformed, 0) ∧
      cleanupBookingHistory now .malformed = (.malformed, 0) ∧
      cleanupSecurityLogs now .malformed = (.malformed, 0) ∧
      cleanupActionLocks now .malformed = (.malformed, 0)) ∧
    (∀ l, (cleanupOldBookings now (.val l)).1 =
      .val (l.filter fun b =>
        !(tsLt (bookingTimestamp b) (now - 90 * dayMs) &&
          completedStatuses.contains b.status))) ∧
    (∀ l, (cleanupBookingHistory now (.val l)).1 =
      .val (l.filter fun e => decide (entryDate e > now - 30 * dayMs))) ∧
    (∀ l, (cleanupSecurityLogs now (.val l)).1 =
      .val (l.filter fun r => decide (r.timestamp > now - 7 * dayMs))) ∧
    (∀ l, (cleanupActionLocks now (.val l)).1 =
      .val (l.filter fun kv => !decide (kv.2.startedAt < now - 1 * dayMs))) ∧
    (∀ lh ll lk,
      (cleanupStaleData now
        ⟨.malformed, .val lh, .val ll, .val lk⟩).1 =
      ⟨.malformed,
        .val (lh.filter fun e => decide (entryDate e > now - 30 * dayMs)),
        .val (ll.filter fun r => decide (r.timestamp > now - 7 * dayMs)),
        .val (lk.filter fun kv =>
          !decide (kv.2.startedAt < now - 1 * dayMs))⟩) :=
  ⟨⟨rfl, rfl, rfl, rfl⟩, ⟨rfl, rfl, rfl, rfl⟩, fun _ => rfl, fun _ => rfl,
   fun _ => rfl, fun _ => rfl, fun _ _ _ => rfl⟩

/-- C8: a `writeImmediate` that hits a quota-exceeded error runs the emergency
eviction (dropping security logs, action locks, submission status and history,
and trimming stored bookings to pending/confirmed/in-progress records) and
then retries exactly once, returning false rather than raising if the retry
also fails; a non-quota failure returns false with no cleanup and no retry. -/
theorem c8_writeImmediate_quota_eviction_retry_once
    (first retry : WriteAttempt) (st : QuotaStore) :
    (first = .quotaExceeded →
      (writeImmediate first retry st).2.1 = emergencyCleanup st ∧
      (writeImmediate first retry st).2.2 = 1 ∧
      ((writeImmediate first retry st).1 = true ↔ retry = .succeeds)) ∧
    (first = .otherError → writeImmediate first retry st = (false, st, 0)) ∧
    ((emergencyCleanup st).bookingSecurityLogs = none ∧
      (emergencyCleanup st).actionLocks = none ∧
      (emergencyCleanup st).bookingSubmissionStatus = none ∧
      (emergencyCleanup st).bookingHistory = none) ∧
    (∀ l, st.bookings = .val l →
      (emergencyCleanup st).bookings =
        .val (l.filter fun b => essentialStatuses.contains b.status)) := by
  refine ⟨?_, ?_, ⟨rfl, rfl, rfl, rfl⟩, ?_⟩
  · intro hfirst
    subst hfirst
    refine ⟨?_, ?_, ?_⟩
    · cases retry <;> rfl
    · cases retry <;> rfl
    · cases retry with
      | succeeds => simp [writeImmediate]
      | quotaExceeded => simp [writeImmediate]
      | otherError => simp [writeImmediate]
  · intro hfirst
    subst hfirst
    rfl
  · intro l hl
    unfold emergencyCleanup
    rw [hl]

/-- Witness for C8: a concrete quota-exceeded write over a store holding one
pending and one completed booking evicts the low-priority keys, keeps only the
pending booking, retries once, and reports success of the retry. -/
theorem c8_writeImmediate_quota_eviction_retry_once_witness :
    (writeImmediate .quotaExceeded .succeeds
        ⟨some "logs", some "locks", some "status", some "history",
          .val [⟨1, none, "pending"⟩, ⟨2, none, "completed"⟩]⟩).2.1 =
      emergencyCleanup
        ⟨some "logs", some "locks", some "status", some "history",
          .val [⟨1, none, "pending"⟩, ⟨2, none, "completed"⟩]⟩ ∧
    (writeImmediate .quotaExceeded .succeeds
        ⟨some "logs", some "locks", some "status", some "history",
          .val [⟨1, none, "pending"⟩, ⟨2, none, "completed"⟩]⟩).2.2 = 1 ∧
    ((writeImmediate .quotaExceeded .succeeds
        ⟨some "logs", some "locks", some "status", some "history",
          .val [⟨1, none, "pending"⟩, ⟨2, none, "completed"⟩]⟩).1 = true ↔
      (StorageManager.WriteAttempt.succeeds : WriteAttempt) = .succeeds) :=
  c8_writeImmediate_quota_eviction_retry_once .quotaExceeded .succeeds
    ⟨some "logs", some "locks", some "status", some "history",
      .val [⟨1, none, "pending"⟩, ⟨2, none, "completed"⟩]⟩ |>.1 rfl

namespace SecurityLogger

/-- A security-log entry (`booking-security-logger.js` lines 41-47). -/
structure LogEntry where
  timestamp : Int
  action : String
  level : String
  userId : String
  sessionId : String
  deriving DecidableEq, Repr

/-- `MAX_LOGS` (booking-security-logger.js line 9). -/
def MAX_LOGS : Nat := 100

/-- `saveLog` (booking-security-logger.js lines 65-81): push the entry, then
`logs.splice(0, logs.length - MAX_LOGS)` when over the cap, i.e. drop the
oldest entries, and persist the result. -/
def saveLog (logs : List LogEntry) (entry : LogEntry) : List LogEntry :=
  let pushed := logs ++ [entry]
  if pushed.length > MAX_LOGS then
    pushed.drop (pushed.length - MAX_LOGS)
  else
    pushed

end SecurityLogger

/-- C9: after every `saveLog` append the persisted log holds at most
`MAX_LOGS = 100` entries; when the append would exceed the cap the oldest
entries are dropped first, so the retained log is exactly the most recent
entries of the appended sequence (a suffix, in append order). -/
theorem c9_saveLog_bounded_fifo (logs : List SecurityLogger.LogEntry)
    (entry : SecurityLogger.LogEntry) :
    (SecurityLogger.saveLog logs entry).length ≤ SecurityLogger.MAX_LOGS ∧
    (SecurityLogger.saveLog logs entry).length =
      min (logs.length + 1) SecurityLogger.MAX_LOGS ∧
    SecurityLogger.saveLog logs entry =
      (logs ++ [entry]).drop (logs.length + 1 - SecurityLogger.MAX_LOGS) ∧
    List.IsSuffix (SecurityLogger.saveLog logs entry) (logs ++ [entry]) := by
  unfold SecurityLogger.saveLog
  dsimp only
  have hlen : (logs ++ [entry]).length = logs.length + 1 := by
    simp
  split
  · rename_i h
    rw [hlen] at h
    refine ⟨?_, ?_, ?_, ?_⟩
    · rw [List.length_drop, hlen]
      omega
    · rw [List.length_drop, hlen]
      omega
    · rw [hlen]
    · exact List.drop_suffix _ _
  · rename_i h
    rw [hlen] at h
    refine ⟨?_, ?_, ?_, ?_⟩
    · rw [hlen]
      omega
    · rw [hlen]
      omega
    · have : logs.length + 1 - SecurityLogger.MAX_LOGS = 0 := by omega
      rw [this, List.drop_zero]
    · exact List.suffix_refl _
